import Mathlib

/-!
Verification of the industrial-protocol-simulators repository.

Shallow embedding of the simulator code:
- `BacnetServer`: the `WaterTank` device model and the server's publish loop
  (src/bacnet/bacnet_server.py);
- `BacnetClient`: the poll-and-conditionally-clear client
  (src/bacnet/bacnet_client.py);
- `ModbusClient`: the four-group polling cycle (src/modbus/tcp_client.py);
- `OpcUa`: the `parse_nodeid` address-string parser
  (src/opcua/opcua_client.py and src/opcua/opcua_server.py);
- `Snap7Client`: the read-increment-writeback cycle
  (src/siemens/snap7_client.py).

Python floats are modelled as rationals (the claims under study are
order-theoretic and unaffected by rounding); the random draws of
`random.uniform` are passed as explicit parameters; Python exceptions are
modelled with `Except`/`Option`.
-/

namespace BacnetServer

/-- State of the simulated water tank, from `WaterTank.__init__`
(src/bacnet/bacnet_server.py lines 27-33). -/
structure WaterTank where
  level : ℚ
  temperature : ℚ
  high_thresh : ℚ
  low_thresh : ℚ
  high_alarm : Bool
  low_alarm : Bool
deriving DecidableEq

/-- One simulation step `WaterTank.update_tank` (lines 35-48): add the level
delta drawn from `uniform(-1.0, 2.0)`, clamp via `max(0.0, min(100.0, level))`,
drift the temperature, then recompute both alarms from the new level.  The two
random draws are the explicit arguments `levelDelta` and `tempDelta`. -/
def update_tank (t : WaterTank) (levelDelta tempDelta : ℚ) : WaterTank :=
  let newLevel := max 0 (min 100 (t.level + levelDelta))
  { level := newLevel
    temperature := t.temperature + tempDelta
    high_thresh := t.high_thresh
    low_thresh := t.low_thresh
    high_alarm := decide (newLevel ≥ t.high_thresh)
    low_alarm := decide (newLevel ≤ t.low_thresh) }

/-- The three BACnet present values kept in sync by the server
(`level_obj`, `temp_obj`, `alarm_obj`; the binary alarm is published as 1/0). -/
structure BacnetObjects where
  levelPV : ℚ
  tempPV : ℚ
  alarmPV : ℕ
deriving DecidableEq

/-- One iteration of the server's `update_loop` (lines 123-131): call
`update_tank`, then overwrite all three present values from the tank state.
The previous object state `objs` (which an external client may have written,
e.g. clearing the alarm) is an argument, but the sync step overwrites it. -/
def update_loop_iter (t : WaterTank) (objs : BacnetObjects)
    (levelDelta tempDelta : ℚ) : WaterTank × BacnetObjects :=
  let t2 := update_tank t levelDelta tempDelta
  (t2, { levelPV := t2.level
         tempPV := t2.temperature
         alarmPV := if t2.high_alarm || t2.low_alarm then 1 else 0 })

/-- Iterate the update loop over a list of (levelDelta, tempDelta) draws. -/
def run_ticks (t : WaterTank) (objs : BacnetObjects)
    (deltas : List (ℚ × ℚ)) : WaterTank × BacnetObjects :=
  deltas.foldl (fun p d => update_loop_iter p.1 p.2 d.1 d.2) (t, objs)

/-- The spec's stateless `AlarmEngine.evaluate`, written from the spec's
words for comparison with the tank's alarm fields:
`high_alarm = level >= high_threshold`, `low_alarm = level <= low_threshold`. -/
def evaluate (level high_threshold low_threshold : ℚ) : Bool × Bool :=
  (decide (level ≥ high_threshold), decide (level ≤ low_threshold))

/-- C1: for every starting level and every delta in the support of
`uniform(-1.0, 2.0)`, one `update_tank` step leaves the level inside
`[0, 100]`: the step adds the delta and then clamps to `[0, 100]`. -/
theorem update_tank_level_in_range (t : WaterTank) (levelDelta tempDelta : ℚ)
    (h1 : -1 ≤ levelDelta) (h2 : levelDelta ≤ 2) :
    0 ≤ (update_tank t levelDelta tempDelta).level ∧
      (update_tank t levelDelta tempDelta).level ≤ 100 := by
  unfold update_tank
  constructor
  · exact le_max_left 0 _
  · exact max_le (by norm_num) (min_le_left _ _)

/-- Witness for C1 at a concrete input: starting level 99, delta 2. -/
theorem update_tank_level_in_range_witness :
    0 ≤ (update_tank ⟨99, 20, 90, 10, false, false⟩ 2 0).level ∧
      (update_tank ⟨99, 20, 90, 10, false, false⟩ 2 0).level ≤ 100 :=
  update_tank_level_in_range ⟨99, 20, 90, 10, false, false⟩ 2 0
    (by norm_num) (by norm_num)

/-- C2: alarm evaluation is boundary-inclusive with non-strict comparisons at
both ends: after a tick, `high_alarm = (level ≥ high_thresh)` and
`low_alarm = (level ≤ low_thresh)` — exactly the spec's `evaluate` — and a
level exactly equal to either threshold yields the corresponding alarm. -/
theorem update_tank_alarms_boundary_inclusive
    (t : WaterTank) (levelDelta tempDelta : ℚ) :
    ((update_tank t levelDelta tempDelta).high_alarm,
      (update_tank t levelDelta tempDelta).low_alarm) =
      evaluate (update_tank t levelDelta tempDelta).level
        t.high_thresh t.low_thresh ∧
    ((update_tank t levelDelta tempDelta).level = t.high_thresh →
      (update_tank t levelDelta tempDelta).high_alarm = true) ∧
    ((update_tank t levelDelta tempDelta).level = t.low_thresh →
      (update_tank t levelDelta tempDelta).low_alarm = true) := by
  refine ⟨rfl, ?_, ?_⟩
  · intro h
    simp only [update_tank] at h ⊢
    simp [h]
  · intro h
    simp only [update_tank] at h ⊢
    simp [h]

/-- Witness for C2: starting level 88, delta +2, high threshold 90 — the new
level sits exactly on the high threshold and the high alarm is raised. -/
theorem update_tank_alarms_boundary_inclusive_witness :
    (update_tank ⟨88, 20, 90, 10, false, false⟩ 2 0).level = 90 ∧
      (update_tank ⟨88, 20, 90, 10, false, false⟩ 2 0).high_alarm = true :=
  ⟨by norm_num [update_tank, min_def, max_def],
    (update_tank_alarms_boundary_inclusive
      ⟨88, 20, 90, 10, false, false⟩ 2 0).2.1
      (by norm_num [update_tank, min_def, max_def])⟩

/-- C3: an external clear of the published alarm tag is transient: the next
`update_loop` iteration computes the published alarm from the thresholds
alone — its output does not depend on the externally written object state —
and whenever the threshold condition holds of the level the tick evaluates,
the published alarm tag is re-asserted to active (1) on that tick. -/
theorem external_alarm_clear_is_transient
    (t : WaterTank) (objs objsClr : BacnetObjects) (levelDelta tempDelta : ℚ) :
    update_loop_iter t objsClr levelDelta tempDelta =
      update_loop_iter t objs levelDelta tempDelta ∧
    ((update_tank t levelDelta tempDelta).level ≥ t.high_thresh ∨
        (update_tank t levelDelta tempDelta).level ≤ t.low_thresh →
      (update_loop_iter t objsClr levelDelta tempDelta).2.alarmPV = 1) := by
  constructor
  · rfl
  · intro h
    simp only [update_loop_iter, update_tank] at h ⊢
    rcases h with h | h
    · simp [h]
    · simp [h]

/-- Witness for C3: level 95 with high threshold 90; an external write has
set the published alarm to 0, but the next tick (delta 0) republishes 1. -/
theorem external_alarm_clear_is_transient_witness :
    (update_loop_iter ⟨95, 20, 90, 10, true, false⟩ ⟨95, 20, 0⟩ 0 0).2.alarmPV
      = 1 :=
  (external_alarm_clear_is_transient ⟨95, 20, 90, 10, true, false⟩
      ⟨95, 20, 0⟩ ⟨95, 20, 0⟩ 0 0).2
    (Or.inl (by norm_num [update_tank, min_def, max_def]))

/-- C6: deterministic scenario: initial_level = 50, high_threshold = 90,
low_threshold = 10, level delta +5 every tick.  After 8 ticks the level
reaches 90 (≥ 90), `high_alarm` is true on that tick and the published alarm
tag is 1 on that same tick; after 7 ticks the alarm is still inactive, so the
tag flips on the crossing tick, not one tick later. -/
theorem scenario_alarm_flips_on_tick_8 :
    (run_ticks ⟨50, 20, 90, 10, false, false⟩ ⟨50, 20, 0⟩
        [(5, 0), (5, 0), (5, 0), (5, 0), (5, 0), (5, 0), (5, 0),
          (5, 0)]).1.level ≥ 90 ∧
    (run_ticks ⟨50, 20, 90, 10, false, false⟩ ⟨50, 20, 0⟩
        [(5, 0), (5, 0), (5, 0), (5, 0), (5, 0), (5, 0), (5, 0),
          (5, 0)]).1.high_alarm = true ∧
    (run_ticks ⟨50, 20, 90, 10, false, false⟩ ⟨50, 20, 0⟩
        [(5, 0), (5, 0), (5, 0), (5, 0), (5, 0), (5, 0), (5, 0),
          (5, 0)]).2.alarmPV = 1 ∧
    (run_ticks ⟨50, 20, 90, 10, false, false⟩ ⟨50, 20, 0⟩
        [(5, 0), (5, 0), (5, 0), (5, 0), (5, 0), (5, 0),
          (5, 0)]).1.high_alarm = false ∧
    (run_ticks ⟨50, 20, 90, 10, false, false⟩ ⟨50, 20, 0⟩
        [(5, 0), (5, 0), (5, 0), (5, 0), (5, 0), (5, 0),
          (5, 0)]).2.alarmPV = 0 := by
  norm_num [run_ticks, update_loop_iter, update_tank, min_def, max_def]

end BacnetServer

namespace ModbusClient

/-- The four register groups polled in order by `run_modbus_client`
(src/modbus/tcp_client.py lines 75-118). -/
inductive Group
  | coils
  | discretes
  | holding
  | inputRegs
deriving DecidableEq

/-- Outcome of one adapter read call: a normal response carrying values,
a protocol-level error response (`resp.isError()` is true), or a raised
`ModbusIOException`. -/
inductive ReadOutcome
  | ok (values : List Nat)
  | errResponse
  | ioException
deriving DecidableEq

/-- What the polling loop logs for one group (the three branches of each
try/except block: the info line with the values, the `isError` log line, or
the `ModbusIOException` log line). -/
inductive LogEntry
  | infoValues (g : Group) (values : List Nat)
  | errResponseLog (g : Group)
  | ioExceptionLog (g : Group)
deriving DecidableEq

/-- The log entry the loop body produces for a group, as a function of that
group's own read outcome. -/
def logFor (g : Group) : ReadOutcome → LogEntry
  | .ok vs => .infoValues g vs
  | .errResponse => .errResponseLog g
  | .ioException => .ioExceptionLog g

/-- One group's body inside the polling loop: skipped when its configured
`count` is 0, otherwise one adapter read is attempted and exactly one log
entry is produced; a protocol error response and a transport exception are
both caught locally.  Returns (adapter read calls, log entries). -/
def pollGroup (count : Nat) (g : Group) (read : Group → ReadOutcome) :
    List Group × List LogEntry :=
  if count > 0 then ([g], [logFor g (read g)]) else ([], [])

/-- One full poll cycle (one iteration of the `while True` loop): the four
groups in source order, each handled by `pollGroup`; the first component
lists the adapter read calls made, the second the log entries emitted. -/
def pollCycle (counts : Group → Nat) (read : Group → ReadOutcome) :
    List Group × List LogEntry :=
  let c := pollGroup (counts .coils) .coils read
  let d := pollGroup (counts .discretes) .discretes read
  let h := pollGroup (counts .holding) .holding read
  let i := pollGroup (counts .inputRegs) .inputRegs read
  (c.1 ++ d.1 ++ h.1 ++ i.1, c.2 ++ d.2 ++ h.2 ++ i.2)

/-- C4: failure isolation within one poll cycle: whatever the outcomes of the
other groups — error responses or transport exceptions included — every group
with a positive count is attempted and its own outcome is logged, successes
as value lines and both failure shapes as error lines, with nothing raising
out of the cycle (the cycle is a total function). -/
theorem poll_cycle_failure_isolation
    (counts : Group → Nat) (read : Group → ReadOutcome) (g : Group)
    (h : counts g > 0) :
    logFor g (read g) ∈ (pollCycle counts read).2 := by
  cases g <;> simp [pollCycle, pollGroup, h]

/-- A concrete read map for the C4 witness: coils raise a transport
exception, holding registers return a protocol error response, the other
two groups succeed. -/
def mixedRead : Group → ReadOutcome
  | .coils => .ioException
  | .discretes => .ok [1]
  | .holding => .errResponse
  | .inputRegs => .ok [2]

/-- Witness for C4: with `mixedRead`, each of the two successes is still
reported and both failure shapes are logged. -/
theorem poll_cycle_failure_isolation_witness :
    LogEntry.infoValues .discretes [1] ∈ (pollCycle (fun _ => 1) mixedRead).2 ∧
    LogEntry.infoValues .inputRegs [2] ∈ (pollCycle (fun _ => 1) mixedRead).2 ∧
    LogEntry.ioExceptionLog .coils ∈ (pollCycle (fun _ => 1) mixedRead).2 ∧
    LogEntry.errResponseLog .holding ∈ (pollCycle (fun _ => 1) mixedRead).2 :=
  ⟨poll_cycle_failure_isolation (fun _ => 1) mixedRead .discretes (by decide),
    poll_cycle_failure_isolation (fun _ => 1) mixedRead .inputRegs (by decide),
    poll_cycle_failure_isolation (fun _ => 1) mixedRead .coils (by decide),
    poll_cycle_failure_isolation (fun _ => 1) mixedRead .holding (by decide)⟩

/-- A group only ever appears among its own `pollGroup`'s read calls, and
only when its count is positive. -/
lemma mem_pollGroup_reads {c : Nat} {g g' : Group} {read : Group → ReadOutcome}
    (h : g' ∈ (pollGroup c g read).1) : g' = g ∧ c > 0 := by
  unfold pollGroup at h
  split at h <;> simp_all

/-- C7: a group configured with `count = 0` is skipped entirely — the adapter
read for it is never invoked in the cycle — while every group with a positive
count is read. -/
theorem zero_count_group_skipped
    (counts : Group → Nat) (read : Group → ReadOutcome) (g : Group) :
    (counts g = 0 → g ∉ (pollCycle counts read).1) ∧
      (counts g > 0 → g ∈ (pollCycle counts read).1) := by
  constructor
  · intro h0 hmem
    simp only [pollCycle, List.mem_append] at hmem
    rcases hmem with ((hc | hd) | hh) | hi <;>
      · obtain ⟨rfl, hpos⟩ := mem_pollGroup_reads ‹_›
        omega
  · intro hpos
    cases g <;> simp [pollCycle, pollGroup, hpos]

/-- Witness for C7: coils configured with count 0 are never read, while the
other three groups (count 5) are. -/
theorem zero_count_group_skipped_witness :
    Group.coils ∉
      (pollCycle (fun g => match g with | .coils => 0 | _ => 5)
        (fun _ => .ok [])).1 ∧
    Group.holding ∈
      (pollCycle (fun g => match g with | .coils => 0 | _ => 5)
        (fun _ => .ok [])).1 :=
  ⟨(zero_count_group_skipped _ _ .coils).1 rfl,
    (zero_count_group_skipped _ _ .holding).2 (by decide)⟩

end ModbusClient

namespace Snap7Client

/-- The write-back step of one poll cycle in `run_snap7_client`
(src/siemens/snap7_client.py lines 57-75): after `db_read` returns the byte
buffer `data`, the client takes `data[1]`, computes `(data[1] + 1) % 256`,
stores it back at index 1 with `set_byte`, and writes the whole buffer back.
`none` models the `IndexError` raised by `data[1]` when the buffer has fewer
than two bytes. -/
def writtenBuffer (data : List Nat) : Option (List Nat) :=
  match data with
  | b0 :: b1 :: rest => some (b0 :: (b1 + 1) % 256 :: rest)
  | _ => none

/-- The `db_write` calls issued in one cycle after a successful read: the
write-back is unconditional — it does not depend on any alarm state — so
there is exactly one write whenever the buffer transform succeeds. -/
def cycleWrites (data : List Nat) : List (List Nat) :=
  match writtenBuffer data with
  | some out => [out]
  | none => []

/-- C10: after a successful read of at least two bytes, the cycle issues
exactly one unconditional write of the same-length buffer in which the byte
at index 1 became `(old + 1) % 256` and every other byte is unchanged. -/
theorem snap7_writeback (data : List Nat) (h : 2 ≤ data.length) :
    (writtenBuffer data).isSome = true ∧
    ((writtenBuffer data).getD []).length = data.length ∧
    ((writtenBuffer data).getD []).get? 1 =
      some (((data.get? 1).getD 0 + 1) % 256) ∧
    (∀ i, i ≠ 1 → ((writtenBuffer data).getD []).get? i = data.get? i) ∧
    cycleWrites data = [(writtenBuffer data).getD []] := by
  match data, h with
  | b0 :: b1 :: rest, _ =>
    refine ⟨rfl, rfl, rfl, ?_, rfl⟩
    intro i hi
    match i, hi with
    | 0, _ => rfl
    | (n + 2), _ => rfl

/-- Witness for C10 on the buffer `[7, 255, 3]`: one write of `[7, 0, 3]` —
byte 1 wraps from 255 to 0, bytes 0 and 2 are untouched. -/
theorem snap7_writeback_witness :
    ((writtenBuffer [7, 255, 3]).getD []).get? 1 = some 0 ∧
    ((writtenBuffer [7, 255, 3]).getD []).get? 0 = some 7 ∧
    ((writtenBuffer [7, 255, 3]).getD []).get? 2 = some 3 ∧
    cycleWrites [7, 255, 3] = [(writtenBuffer [7, 255, 3]).getD []] := by
  have h := snap7_writeback [7, 255, 3] (by decide)
  exact ⟨h.2.2.1, h.2.2.2.1 0 (by decide), h.2.2.2.1 2 (by decide), h.2.2.2.2⟩

end Snap7Client

namespace BacnetClient

/-- The value a BACnet property read yields once in the client, after
`read_prop` extracted it: either something Python `float()` converts (the
analog-encoded boolean or any numeric), or a value on which `float()` raises
`ValueError`. -/
inductive PropValue
  | real (q : ℚ)
  | nonNumeric
deriving DecidableEq

/-- Outcome of one `read_prop` transport exchange (src/bacnet/bacnet_client.py
lines 32-56): an error on the request (`iocb.ioError`), an empty response, or
a response carrying a property value. -/
inductive ReadExchange
  | ioError
  | noResponse
  | response (v : PropValue)
deriving DecidableEq

/-- The log lines `main` and its helpers can emit, tagged by call site. -/
inductive LogEntry
  | readErrorLog
  | noResponseLog
  | levelInfo (v : Option PropValue)
  | tempInfo (v : Option PropValue)
  | alarmInfo (v : Option PropValue)
  | clearingInfo
  | writeErrorLog
  | clearedInfo
deriving DecidableEq

/-- Whether a log entry reports an error (the `log.error` calls). -/
def isErrorLog : LogEntry → Bool
  | .readErrorLog => true
  | .noResponseLog => true
  | .writeErrorLog => true
  | _ => false

/-- `read_prop`: logs of the exchange and the returned optional value. -/
def read_prop (r : ReadExchange) : List LogEntry × Option PropValue :=
  match r with
  | .ioError => ([.readErrorLog], none)
  | .noResponse => ([.noResponseLog], none)
  | .response v => ([], some v)

/-- `write_prop` (lines 58-78): on transport error it logs and returns
false, otherwise returns true; `writeOk` is the transport's behaviour. -/
def write_prop (writeOk : Bool) : List LogEntry × Bool :=
  if writeOk then ([], true) else ([.writeErrorLog], false)

/-- The alarm-clear block of `main` (lines 118-127): when not read-only and
the alarm read returned a value, Python `float()` is applied; a `ValueError`
is caught by `except ValueError: pass` (no log); a converted value equal to
`1.0` triggers one write of `0.0`.  Returns (logs, values written). -/
def clearBlock (readOnly : Bool) (alarmVal : Option PropValue)
    (writeOk : Bool) : List LogEntry × List ℚ :=
  if !readOnly then
    match alarmVal with
    | some (.real q) =>
      if q = 1 then
        let w := write_prop writeOk
        ([.clearingInfo] ++ w.1 ++ (if w.2 then [.clearedInfo] else []), [0])
      else ([], [])
    | some .nonNumeric => ([], [])
    | none => ([], [])
  else ([], [])

/-- The whole of `main` after configuration (lines 106-127): read level,
temperature and alarm — each read's value is logged as an info line whether
or not the read succeeded — then run the alarm-clear block.  Returns
(logs, values written to the alarm object). -/
def mainRun (readOnly : Bool) (levelR tempR alarmR : ReadExchange)
    (writeOk : Bool) : List LogEntry × List ℚ :=
  let l := read_prop levelR
  let t := read_prop tempR
  let a := read_prop alarmR
  let c := clearBlock readOnly a.2 writeOk
  (l.1 ++ [.levelInfo l.2] ++ t.1 ++ [.tempInfo t.2] ++
      a.1 ++ [.alarmInfo a.2] ++ c.1,
    c.2)

/-- C5: in the default (not read-only) invocation, the alarm-clear write is
issued iff the alarm read succeeded with a value that `float()` converts to
exactly `1.0`; when issued it is a single write of `0.0`; it is never issued
when the alarm read failed (returned no value). -/
theorem alarm_clear_write_iff (alarmR : ReadExchange) (writeOk : Bool) :
    ((mainRun false .ioError .ioError alarmR writeOk).2 = [0] ↔
      alarmR = .response (.real 1)) ∧
    (mainRun false .ioError .ioError alarmR writeOk).2.length ≤ 1 ∧
    ((read_prop alarmR).2 = none →
      (mainRun false .ioError .ioError alarmR writeOk).2 = []) := by
  refine ⟨⟨?_, ?_⟩, ?_, ?_⟩
  · intro h
    cases alarmR with
    | ioError => simp [mainRun, read_prop, clearBlock] at h
    | noResponse => simp [mainRun, read_prop, clearBlock] at h
    | response v =>
      cases v with
      | real q =>
        by_cases hq : q = 1
        · simp [hq]
        · simp [mainRun, read_prop, clearBlock, hq] at h
      | nonNumeric => simp [mainRun, read_prop, clearBlock] at h
  · intro h
    subst h
    simp [mainRun, read_prop, clearBlock]
  · cases alarmR with
    | ioError => simp [mainRun, read_prop, clearBlock]
    | noResponse => simp [mainRun, read_prop, clearBlock]
    | response v =>
      cases v with
      | real q =>
        by_cases hq : q = 1 <;> simp [mainRun, read_prop, clearBlock, hq]
      | nonNumeric => simp [mainRun, read_prop, clearBlock]
  · intro h
    cases alarmR with
    | ioError => simp [mainRun, read_prop, clearBlock]
    | noResponse => simp [mainRun, read_prop, clearBlock]
    | response v => simp [read_prop] at h

/-- Witness for C5: an alarm read of `1.0` yields exactly the single write
`[0]`, and a failed alarm read yields no write. -/
theorem alarm_clear_write_iff_witness :
    (mainRun false .ioError .ioError (.response (.real 1)) true).2 = [0] ∧
    (mainRun false .ioError .ioError .ioError true).2 = [] :=
  ⟨(alarm_clear_write_iff (.response (.real 1)) true).1.2 rfl,
    (alarm_clear_write_iff .ioError true).2.2 rfl⟩

/-- C9 counterexample: a run in which a failure occurs but the log holds no
error entry.  The alarm read succeeds with a value `float()` cannot convert;
the `except ValueError: pass` at lines 126-127 swallows the failure, so the
whole run (all other exchanges succeeding) emits not a single error log. -/
theorem uninterpretable_alarm_value_unlogged :
    (read_prop (.response .nonNumeric)).2 = some .nonNumeric ∧
    (mainRun false (.response (.real 50)) (.response (.real 20))
        (.response .nonNumeric) true).1.filter isErrorLog = [] :=
  ⟨rfl, rfl⟩

/-- C9 amended: every recoverable failure except an alarm value that cannot
be interpreted as a float is logged: failed reads log a read error or a
no-response error, and a failed alarm-clear write logs a write error; only
the `ValueError` of `float(alarm_val)` is swallowed without a log. -/
theorem recoverable_failures_logged
    (ro : Bool) (l t a : ReadExchange) (w : Bool) :
    (l = .ioError → LogEntry.readErrorLog ∈ (mainRun ro l t a w).1) ∧
    (l = .noResponse → LogEntry.noResponseLog ∈ (mainRun ro l t a w).1) ∧
    (t = .ioError → LogEntry.readErrorLog ∈ (mainRun ro l t a w).1) ∧
    (t = .noResponse → LogEntry.noResponseLog ∈ (mainRun ro l t a w).1) ∧
    (a = .ioError → LogEntry.readErrorLog ∈ (mainRun ro l t a w).1) ∧
    (a = .noResponse → LogEntry.noResponseLog ∈ (mainRun ro l t a w).1) ∧
    (ro = false → a = .response (.real 1) → w = false →
      LogEntry.writeErrorLog ∈ (mainRun ro l t a w).1) := by
  refine ⟨?_, ?_, ?_, ?_, ?_, ?_, ?_⟩
  case _ => intro h; subst h; simp [mainRun, read_prop]
  case _ => intro h; subst h; simp [mainRun, read_prop]
  case _ => intro h; subst h; simp [mainRun, read_prop]
  case _ => intro h; subst h; simp [mainRun, read_prop]
  case _ => intro h; subst h; simp [mainRun, read_prop]
  case _ => intro h; subst h; simp [mainRun, read_prop]
  case _ =>
    intro h1 h2 h3
    subst h1
    subst h2
    subst h3
    simp [mainRun, read_prop, clearBlock, write_prop]

/-- Witness for the amended C9: the level read fails with an io error and
the alarm-clear write fails; both are logged. -/
theorem recoverable_failures_logged_witness :
    LogEntry.readErrorLog ∈
      (mainRun false .ioError (.response (.real 20))
        (.response (.real 1)) false).1 ∧
    LogEntry.writeErrorLog ∈
      (mainRun false .ioError (.response (.real 20))
        (.response (.real 1)) false).1 :=
  ⟨(recoverable_failures_logged false .ioError (.response (.real 20))
      (.response (.real 1)) false).1 rfl,
    (recoverable_failures_logged false .ioError (.response (.real 20))
      (.response (.real 1)) false).2.2.2.2.2.2 rfl rfl rfl⟩

end BacnetClient

namespace OpcUa

/-- The three `NodeIdType` constructors used by `parse_nodeid`. -/
inductive NodeIdType
  | stringId
  | numericId
  | byteStringId
deriving DecidableEq

/-- The identifier payload of a node id: the string branch (used for both
string and byte-string ids, which keep the raw text) or the numeric one. -/
inductive NodeIdent
  | str (s : List Char)
  | num (n : Int)
deriving DecidableEq

/-- The `NodeId(identifier, namespace_index, type)` value built by the
parser. -/
structure NodeId where
  ident : NodeIdent
  ns : Int
  ty : NodeIdType
deriving DecidableEq

/-- The Python exceptions `parse_nodeid` can raise: `IndexError` from a
missing list element and `ValueError` from `int()`. -/
inductive PyErr
  | indexError
  | valueError
deriving DecidableEq

/-- Python `str.split(sep)` on a character list: always returns at least one
(possibly empty) segment. -/
def pySplit (sep : Char) : List Char → List (List Char)
  | [] => [[]]
  | c :: cs =>
    if c = sep then [] :: pySplit sep cs
    else
      match pySplit sep cs with
      | [] => [[c]]
      | h :: t => (c :: h) :: t

/-- Python list indexing `l[i]`, raising `IndexError` past the end. -/
def listIndex (l : List (List Char)) (i : Nat) : Except PyErr (List Char) :=
  match l.get? i with
  | some x => .ok x
  | none => .error .indexError

/-- Python `s.split(sep, 1)[1]`: everything after the first separator
(only ever used when the separator is present). -/
def afterFirst (sep : Char) : List Char → List Char
  | [] => []
  | c :: cs => if c = sep then cs else afterFirst sep cs

/-- Numeric value of an ASCII digit. -/
def digitVal (c : Char) : Nat := c.toNat - 48

/-- The ASCII whitespace characters Python's `int()` strips from both ends
of its argument. -/
def isPySpace (c : Char) : Bool :=
  c = ' ' || c = '\t' || c = '\n' || c = '\r' || c = '\x0b' || c = '\x0c'

/-- Python's digit grouping for `int()` literals: one or more ASCII digits,
with a single underscore allowed only between two digits (`1_0` is valid;
`_1`, `1_` and `1__0` are not). -/
def digitsGrouped : List Char → Bool
  | [] => false
  | [c] => c.isDigit
  | c :: '_' :: rest => c.isDigit && digitsGrouped rest
  | c :: rest => c.isDigit && digitsGrouped rest

/-- The value of a grouped digit string, underscores skipped. -/
def digitsValue (cs : List Char) : Nat :=
  (cs.filter (fun c => c ≠ '_')).foldl (fun acc c => acc * 10 + digitVal c) 0

/-- Python `int(s)` in base 10 on ASCII text: surrounding whitespace is
stripped, then an optional sign followed by an underscore-grouped digit
string; anything else raises `ValueError` — so `int(" 5") = 5` and
`int("1_0") = 10`, while `int("")`, `int("abc")`, `int("1_")` raise.
(Non-ASCII numerals and non-ASCII whitespace, which CPython also accepts,
are outside this model.) -/
def pyInt (cs : List Char) : Except PyErr Int :=
  let trimmed := ((cs.dropWhile isPySpace).reverse.dropWhile isPySpace).reverse
  let p : Bool × List Char :=
    match trimmed with
    | '-' :: rest => (true, rest)
    | '+' :: rest => (false, rest)
    | _ => (false, trimmed)
  if digitsGrouped p.2 then
    .ok (if p.1 then -(digitsValue p.2 : Int) else (digitsValue p.2 : Int))
  else .error .valueError

/-- The `id_part.startswith(k + "=")` tests of the parser, for the one-letter
kinds `s`, `i`, `b`. -/
def hasKindTag (k : Char) : List Char → Bool
  | a :: b :: _ => a = k && b = '='
  | _ => false

/-- `parse_nodeid` (src/opcua/opcua_client.py lines 20-36 and the identical
helper in src/opcua/opcua_server.py lines 57-78): split on `;`, take the
namespace index from `parts[0].split("=")[1]` via `int`, then dispatch on the
`s=` / `i=` / `b=` kind of `parts[1]`, falling back to a string id over the
whole id part for any other shape. -/
def parse_nodeid (cs : List Char) : Except PyErr NodeId :=
  let parts := pySplit ';' cs
  match listIndex parts 0 with
  | .error e => .error e
  | .ok ns_part =>
    match listIndex parts 1 with
    | .error e => .error e
    | .ok id_part =>
      match listIndex (pySplit '=' ns_part) 1 with
      | .error e => .error e
      | .ok nsStr =>
        match pyInt nsStr with
        | .error e => .error e
        | .ok ns_idx =>
          if hasKindTag 's' id_part then
            .ok ⟨.str (afterFirst '=' id_part), ns_idx, .stringId⟩
          else if hasKindTag 'i' id_part then
            match pyInt (afterFirst '=' id_part) with
            | .ok n => .ok ⟨.num n, ns_idx, .numericId⟩
            | .error e => .error e
          else if hasKindTag 'b' id_part then
            .ok ⟨.str (afterFirst '=' id_part), ns_idx, .byteStringId⟩
          else
            .ok ⟨.str id_part, ns_idx, .stringId⟩

/-- Modelled from the spec's words (section 6, address string format): the
input has the exact shape `ns=<int>;<kind>=<id>` — the literal name `ns`,
then an integer, a `;`, a nonempty kind token, `=`, and the id. -/
def specShaped (cs : List Char) : Bool :=
  match cs with
  | 'n' :: 's' :: '=' :: rest =>
    match rest.dropWhile (fun c => c ≠ ';') with
    | ';' :: idPart =>
      (match pyInt (rest.takeWhile (fun c => c ≠ ';')) with
        | .ok _ => true
        | .error _ => false) &&
      !(idPart.takeWhile (fun c => c ≠ '=')).isEmpty &&
      !(idPart.dropWhile (fun c => c ≠ '=')).isEmpty
    | _ => false
  | _ => false

/-- Splitting a list that holds no separator yields that single segment. -/
lemma pySplit_no_sep (sep : Char) (xs : List Char)
    (h : ∀ c ∈ xs, c ≠ sep) : pySplit sep xs = [xs] := by
  induction xs with
  | nil => rfl
  | cons c cs ih =>
    have hc : c ≠ sep := h c (by simp)
    have ih2 := ih (fun d hd => h d (by simp [hd]))
    simp [pySplit, hc, ih2]

/-- Splitting across the first separator: a separator-free front segment is
cut off whole. -/
lemma pySplit_append (sep : Char) (xs ys : List Char)
    (h : ∀ c ∈ xs, c ≠ sep) :
    pySplit sep (xs ++ sep :: ys) = xs :: pySplit sep ys := by
  induction xs with
  | nil => simp [pySplit]
  | cons c cs ih =>
    have hc : c ≠ sep := h c (by simp)
    have ih2 := ih (fun d hd => h d (by simp [hd]))
    simp [pySplit, hc, ih2]

/-- Extending a separator-free character list by a non-separator head. -/
lemma forall_ne_cons {sep a : Char} {xs : List Char} (ha : a ≠ sep)
    (hxs : ∀ c ∈ xs, c ≠ sep) : ∀ c ∈ a :: xs, c ≠ sep := by
  intro c hc
  rcases List.mem_cons.mp hc with rfl | h
  · exact ha
  · exact hxs c h

/-- On an input decomposed as `ns=<nsChars>;<idPart>` with a separator-free
namespace text and a `;`-free id part, the parser reduces to the kind
dispatch over `idPart` with the parsed namespace integer. -/
lemma parse_nodeid_decomp (nsChars idPart : List Char) (n : Int)
    (hns1 : ∀ c ∈ nsChars, c ≠ ';') (hns2 : ∀ c ∈ nsChars, c ≠ '=')
    (hid : ∀ c ∈ idPart, c ≠ ';') (hn : pyInt nsChars = .ok n) :
    parse_nodeid (('n' :: 's' :: '=' :: nsChars) ++ ';' :: idPart) =
      (if hasKindTag 's' idPart then
        .ok ⟨.str (afterFirst '=' idPart), n, .stringId⟩
      else if hasKindTag 'i' idPart then
        match pyInt (afterFirst '=' idPart) with
        | .ok m => .ok ⟨.num m, n, .numericId⟩
        | .error e => .error e
      else if hasKindTag 'b' idPart then
        .ok ⟨.str (afterFirst '=' idPart), n, .byteStringId⟩
      else .ok ⟨.str idPart, n, .stringId⟩) := by
  have hsplit : pySplit ';' (('n' :: 's' :: '=' :: nsChars) ++ ';' :: idPart)
      = ('n' :: 's' :: '=' :: nsChars) :: [idPart] := by
    rw [pySplit_append ';' _ _ (forall_ne_cons (by decide)
        (forall_ne_cons (by decide) (forall_ne_cons (by decide) hns1))),
      pySplit_no_sep ';' idPart hid]
  simp only [parse_nodeid, hsplit, listIndex, List.get?]
  rw [pySplit_no_sep '=' nsChars hns2]
  simp only [List.get?, hn]

/-- C8 counterexample: `x=5;s=foo` is not of the spec's shape
`ns=<int>;<kind>=<id>` (its namespace field is named `x`, not `ns`), yet
`parse_nodeid` accepts it — returning string id `foo` in namespace 5 —
because the name before the first `=` is never checked. -/
theorem parse_nodeid_accepts_malformed :
    specShaped ['x', '=', '5', ';', 's', '=', 'f', 'o', 'o'] = false ∧
    parse_nodeid ['x', '=', '5', ';', 's', '=', 'f', 'o', 'o'] =
      .ok ⟨.str ['f', 'o', 'o'], 5, .stringId⟩ :=
  ⟨rfl, rfl⟩

/-- C8 amended: the parser is a deterministic (total) function; on inputs
`ns=<int>;<kind>=<id>` the kinds `s`, `i`, `b` map to string, numeric and
byte-string ids with the given namespace integer; an unrecognized kind falls
back to a string id over the whole id part; an input without `;` and an
input whose namespace text is not an integer are rejected with an error —
but the name before the first `=` is not validated, so not every malformed
input is rejected. -/
theorem parse_nodeid_spec (nsChars rest idPart csNoSemi nsBad : List Char)
    (n m : Int)
    (hns1 : ∀ c ∈ nsChars, c ≠ ';') (hns2 : ∀ c ∈ nsChars, c ≠ '=')
    (hn : pyInt nsChars = .ok n) :
    ((∀ c ∈ rest, c ≠ ';') →
      parse_nodeid (('n' :: 's' :: '=' :: nsChars) ++
          ';' :: 's' :: '=' :: rest) =
        .ok ⟨.str rest, n, .stringId⟩) ∧
    ((∀ c ∈ rest, c ≠ ';') → pyInt rest = .ok m →
      parse_nodeid (('n' :: 's' :: '=' :: nsChars) ++
          ';' :: 'i' :: '=' :: rest) =
        .ok ⟨.num m, n, .numericId⟩) ∧
    ((∀ c ∈ rest, c ≠ ';') →
      parse_nodeid (('n' :: 's' :: '=' :: nsChars) ++
          ';' :: 'b' :: '=' :: rest) =
        .ok ⟨.str rest, n, .byteStringId⟩) ∧
    ((∀ c ∈ idPart, c ≠ ';') → hasKindTag 's' idPart = false →
      hasKindTag 'i' idPart = false → hasKindTag 'b' idPart = false →
      parse_nodeid (('n' :: 's' :: '=' :: nsChars) ++ ';' :: idPart) =
        .ok ⟨.str idPart, n, .stringId⟩) ∧
    ((∀ c ∈ csNoSemi, c ≠ ';') →
      parse_nodeid csNoSemi = .error .indexError) ∧
    ((∀ c ∈ nsBad, c ≠ ';') → (∀ c ∈ nsBad, c ≠ '=') →
      (∀ c ∈ idPart, c ≠ ';') → pyInt nsBad = .error .valueError →
      parse_nodeid (('n' :: 's' :: '=' :: nsBad) ++ ';' :: idPart) =
        .error .valueError) := by
  refine ⟨?_, ?_, ?_, ?_, ?_, ?_⟩
  · intro hrest
    rw [parse_nodeid_decomp nsChars ('s' :: '=' :: rest) n hns1 hns2
      (forall_ne_cons (by decide) (forall_ne_cons (by decide) hrest)) hn]
    simp [hasKindTag, afterFirst]
  · intro hrest hm
    rw [parse_nodeid_decomp nsChars ('i' :: '=' :: rest) n hns1 hns2
      (forall_ne_cons (by decide) (forall_ne_cons (by decide) hrest)) hn]
    simp [hasKindTag, afterFirst, hm]
  · intro hrest
    rw [parse_nodeid_decomp nsChars ('b' :: '=' :: rest) n hns1 hns2
      (forall_ne_cons (by decide) (forall_ne_cons (by decide) hrest)) hn]
    simp [hasKindTag, afterFirst]
  · intro hid hs hi hb
    rw [parse_nodeid_decomp nsChars idPart n hns1 hns2 hid hn]
    simp [hs, hi, hb]
  · intro hno
    simp only [parse_nodeid, pySplit_no_sep ';' csNoSemi hno, listIndex,
      List.get?]
  · intro hb1 hb2 hid hbad
    have hsplit : pySplit ';' (('n' :: 's' :: '=' :: nsBad) ++ ';' :: idPart)
        = ('n' :: 's' :: '=' :: nsBad) :: [idPart] := by
      rw [pySplit_append ';' _ _ (forall_ne_cons (by decide)
          (forall_ne_cons (by decide) (forall_ne_cons (by decide) hb1))),
        pySplit_no_sep ';' idPart hid]
    simp only [parse_nodeid, hsplit, listIndex, List.get?]
    rw [pySplit_no_sep '=' nsBad hb2]
    simp only [List.get?, hbad]

/-- Witness for the amended C8: `ns=3;i=42` parses to numeric id 42 in
namespace 3; `garbage` (no `;`) is rejected with an index error; and the
`int()` conveniences carry over to the parser: `ns= 5;s=x` (whitespace-padded
namespace number) and `ns=1_0;s=x` (underscore-grouped namespace number) are
accepted with namespaces 5 and 10. -/
theorem parse_nodeid_spec_witness :
    parse_nodeid ['n', 's', '=', '3', ';', 'i', '=', '4', '2'] =
      .ok ⟨.num 42, 3, .numericId⟩ ∧
    parse_nodeid ['g', 'a', 'r', 'b', 'a', 'g', 'e'] =
      .error .indexError ∧
    parse_nodeid ['n', 's', '=', ' ', '5', ';', 's', '=', 'x'] =
      .ok ⟨.str ['x'], 5, .stringId⟩ ∧
    parse_nodeid ['n', 's', '=', '1', '_', '0', ';', 's', '=', 'x'] =
      .ok ⟨.str ['x'], 10, .stringId⟩ := by
  have h := parse_nodeid_spec ['3'] ['4', '2'] []
    ['g', 'a', 'r', 'b', 'a', 'g', 'e'] [] 3 42
    (by decide) (by decide) rfl
  have h5 := parse_nodeid_spec [' ', '5'] ['x'] [] [] [] 5 0
    (by decide) (by decide) rfl
  have h10 := parse_nodeid_spec ['1', '_', '0'] ['x'] [] [] [] 10 0
    (by decide) (by decide) rfl
  exact ⟨h.2.1 (by decide) rfl, h.2.2.2.2.1 (by decide),
    h5.1 (by decide), h10.1 (by decide)⟩

end OpcUa
